import Mathlib

/-!
Shallow embedding of the two CheckMK notification handlers
(scripts/notifications/discord.py and scripts/notifications/glpi.py)
together with theorems settling the specification claims about them.

Conventions of the embedding:
* Python strings are Lean `String` / `List Char`.
* Machine time is modelled in whole seconds as `Int`; the Python
  `timedelta.seconds` attribute is the Euclidean remainder modulo 86400.
* Fallible calls (HTTP requests, parsing) are `Except Unit` values; the
  outcome of every outbound call an invocation may perform is supplied
  up front as a `World` record, so one Lean function computes the trace
  of issued calls, the persisted state and the propagated outcome.
* Library code that is not part of the repository (hashlib.md5, the
  float literal grammar) is abstracted: the digest is a function
  parameter, and a dedup-log line is represented by its parse outcome.
-/

/-! ## discord.py -/

/-- DEDUP_WINDOW constant of discord.py (5-minute deduplication window). -/
def DEDUP_WINDOW : Int := 300

/-- Python single-character `str.replace`: every occurrence of `c` in the
list is replaced by the list `r`; other characters are kept. -/
def py_replace (l : List Char) (c : Char) (r : List Char) : List Char :=
  l.flatMap fun x => if x = c then r else [x]

/-- `escape_discord` of discord.py: chained `.replace` calls for the three
markdown characters, with a falsy guard (`None` or empty string gives ""). -/
def escape_discord (text : Option String) : String :=
  match text with
  | none => ""
  | some s =>
      if s = "" then ""
      else String.mk (py_replace (py_replace (py_replace s.data '_' ['\\', '_']) '*' ['\\', '*']) '~' ['\\', '~'])

/-- Specification-side per-character escaping: an underscore, asterisk or
tilde gets a backslash in front of it, any other character is unchanged.
Written from the words of the spec, to be compared with `escape_discord`. -/
def escape_spec_char (c : Char) : List Char :=
  if c = '_' ∨ c = '*' ∨ c = '~' then ['\\', c] else [c]

/-- Specification-side escape function, written from the words of the spec. -/
def escape_spec (text : Option String) : String :=
  match text with
  | none => ""
  | some s => String.mk (s.data.flatMap escape_spec_char)

/-- Key string hashed by `get_alert_fingerprint`: the f-string
joining host, service description and service state with underscores. -/
def discord_fingerprint_key (host service state : String) : String :=
  host ++ "_" ++ service ++ "_" ++ state

/-- `get_alert_fingerprint` of discord.py. The md5 hexdigest is library
code outside the repository and is abstracted as the function `md5`. -/
def get_alert_fingerprint (md5 : String → String) (host service state : String) : String :=
  md5 (discord_fingerprint_key host service state)

/-- A line of the dedup log, represented by its parse outcome:
`fields sfp ts` is a line that `strip().split('|')` unpacks into exactly
two fields, the first being `sfp`, with `ts = some t` when Python
`float` accepts the second field (value `t`, whole seconds) and
`ts = none` when `float` raises; `badSplit` is a line whose split does
not unpack into two fields (the unpacking raises). -/
inductive LogLine where
  | fields (sfp : String) (ts : Option Int)
  | badSplit
deriving DecidableEq

/-- Python `timedelta.seconds` attribute of `now - then` for whole-second
datetimes: the Euclidean remainder of the elapsed time modulo 86400
(days are discarded; the attribute is always in [0, 86400)). -/
def td_seconds (elapsed : Int) : Int := elapsed % 86400

/-- The loop body of `is_duplicate_notification`: scan the lines in order;
a line that fails to unpack raises; a line whose fingerprint matches
evaluates `float` (raising on failure) and compares the `.seconds`
attribute of the elapsed timedelta with DEDUP_WINDOW; a raise is
reported as `Except.error ()`. -/
def dedup_scan (now : Int) (fingerprint : String) : List LogLine → Except Unit Bool
  | [] => Except.ok false
  | LogLine.badSplit :: _ => Except.error ()
  | LogLine.fields sfp ts :: rest =>
      if sfp = fingerprint then
        match ts with
        | none => Except.error ()
        | some t =>
            if td_seconds (now - t) < DEDUP_WINDOW then Except.ok true
            else dedup_scan now fingerprint rest
      else dedup_scan now fingerprint rest

/-- `is_duplicate_notification` of discord.py: a missing state file gives
False, and the bare `except` turns any raise inside the scan into False. -/
def is_duplicate_notification (file : Option (List LogLine)) (now : Int) (fingerprint : String) : Bool :=
  match file with
  | none => false
  | some lines =>
      match dedup_scan now fingerprint lines with
      | Except.ok b => b
      | Except.error _ => false

/-- The send decision of the discord.py module flow: when the duplicate
check answers True the script exits 0 before the webhook POST, otherwise
the POST is issued. -/
def discord_main_sends (md5 : String → String) (file : Option (List LogLine)) (now : Int) (host service state : String) : Bool :=
  ! is_duplicate_notification file now (get_alert_fingerprint md5 host service state)

/-- The record returned by `get_custom_message`. -/
structure CustomMessage where
  color : Nat
  emoji : String
  title : String
  description : String
  details : String
  footer : String
deriving DecidableEq

/-- `get_custom_message` of discord.py: dictionary lookup with a default
record; `serviceoutput` is the NOTIFY_SERVICEOUTPUT environment variable
(`none` when unset, in which case `os.environ.get` supplies the default). -/
def get_custom_message (state : String) (serviceoutput : Option String) : CustomMessage :=
  if state = "OK" then
    ⟨65280, "✅", "[AWS] Service Recovery",
      "The Windows server services are recovered.",
      "Every services are working correctly.",
      "System back to normal operation"⟩
  else if state = "WARNING" then
    ⟨16776960, "⚠️", "[AWS] Performance Warning",
      "The Windows server services could be slower.",
      "You could have network failure and file access deprecated.",
      "Investigate when possible"⟩
  else if state = "CRITICAL" then
    ⟨16711680, "🚨", "[AWS] Service Outage",
      "The Windows server services are down.",
      "The network could not work correctly and your file access aren\x27t sure.",
      "Immediate action required"⟩
  else
    ⟨3553599, "ℹ️", "Service Notification",
      "Service state changed to " ++ state,
      serviceoutput.getD "No details available",
      "CheckMK Monitoring"⟩

/-! ## glpi.py -/

/-- The on-disk fingerprint-to-ticket-id map of glpi.py, a JSON object. -/
abbrev TicketMap := List (String × Nat)

/-- `read_state` of glpi.py: load the JSON map when the state file exists,
otherwise the empty map. The file is `none` when missing. -/
def read_state (file : Option TicketMap) : TicketMap := file.getD []

/-- Python `fingerprint in state_data` for the dict. -/
def dict_contains (m : TicketMap) (k : String) : Bool := (m.lookup k).isSome

/-- Python `del state_data[fingerprint]` for the dict: the key is removed. -/
def dict_del (m : TicketMap) (k : String) : TicketMap :=
  m.filter fun p => p.1 != k

/-- The fingerprint computed by glpi.py main: the f-string joining host
and service description with an underscore. -/
def glpi_fingerprint (host service : String) : String := host ++ "_" ++ service

/-- An outbound call issued by one invocation of glpi.py. -/
inductive GlpiEv where
  | openSession
  | createTicket (host service state output : String)
  | closeTicket (id : Nat)
  | closeSession
  | writeState (m : TicketMap)
deriving DecidableEq

/-- Outcome of the outbound calls one invocation of glpi.py may perform:
`open_res` is the result of the initSession request (session token or
raise), `create_res` the ticket id assigned by POST /Ticket (or raise),
`close_ticket_res` the result of PUT /Ticket (or raise), `kill_res` the
result of the killSession request (or raise). -/
structure GlpiWorld where
  open_res : Except Unit String
  create_res : Except Unit Nat
  close_ticket_res : Except Unit Unit
  kill_res : Except Unit Unit

/-- What one invocation of glpi.py did: the outbound calls it issued in
order, the map written to the state file (`none` when `write_state` was
never reached), and whether it exited normally or propagated a raise. -/
structure GlpiRun where
  trace : List GlpiEv
  written : Option TicketMap
  outcome : Except Unit Unit

/-- The try block of glpi.py main (lines 103 to 114): the state machine
on (event state, presence of the fingerprint in the map). Returns the
ticket calls issued and either the state map after the block (mutations
happen only after the call returned) or the raise that aborted it. -/
def glpi_try_body (w : GlpiWorld) (state_data : TicketMap) (fingerprint host service state output : String) :
    List GlpiEv × Except Unit TicketMap :=
  if state = "CRITICAL" ∨ state = "WARNING" then
    if dict_contains state_data fingerprint then ([], Except.ok state_data)
    else
      match w.create_res with
      | Except.error e => ([GlpiEv.createTicket host service state output], Except.error e)
      | Except.ok ticket_id =>
          ([GlpiEv.createTicket host service state output],
            Except.ok (state_data ++ [(fingerprint, ticket_id)]))
  else if state = "OK" then
    match state_data.lookup fingerprint with
    | none => ([], Except.ok state_data)
    | some ticket_id =>
        match w.close_ticket_res with
        | Except.error e => ([GlpiEv.closeTicket ticket_id], Except.error e)
        | Except.ok _ => ([GlpiEv.closeTicket ticket_id], Except.ok (dict_del state_data fingerprint))
  else ([], Except.ok state_data)

/-- `main` of glpi.py: read the state map, open the session (a raise here
propagates with nothing else done), run the try block, then the finally
block: close the session (a raise here skips the write and propagates),
then write the state map (the map from the try block on success, the
unmutated map when the block raised, in which case the raise propagates
after the finally block ran). -/
def glpi_main (w : GlpiWorld) (file : Option TicketMap) (host service state output : String) : GlpiRun :=
  let fingerprint := glpi_fingerprint host service
  let state_data := read_state file
  match w.open_res with
  | Except.error e => ⟨[GlpiEv.openSession], none, Except.error e⟩
  | Except.ok _session =>
      let r := glpi_try_body w state_data fingerprint host service state output
      match w.kill_res with
      | Except.error e =>
          ⟨GlpiEv.openSession :: r.1 ++ [GlpiEv.closeSession], none, Except.error e⟩
      | Except.ok _ =>
          match r.2 with
          | Except.error e =>
              ⟨GlpiEv.openSession :: r.1 ++ [GlpiEv.closeSession, GlpiEv.writeState state_data],
                some state_data, Except.error e⟩
          | Except.ok m =>
              ⟨GlpiEv.openSession :: r.1 ++ [GlpiEv.closeSession, GlpiEv.writeState m],
                some m, Except.ok ()⟩

/-- Whether an outbound call is a ticket operation (create or close). -/
def isTicketOp : GlpiEv → Bool
  | GlpiEv.createTicket _ _ _ _ => true
  | GlpiEv.closeTicket _ => true
  | _ => false

/-- Whether an outbound call is a ticket creation. -/
def isCreate : GlpiEv → Bool
  | GlpiEv.createTicket _ _ _ _ => true
  | _ => false

/-- Number of tickets created during a trace. -/
def createCount (t : List GlpiEv) : Nat := (t.filter isCreate).length

/-! ## Helper lemmas -/

theorem py_replace_single_step (x : Char) :
    py_replace (py_replace (py_replace [x] '_' ['\\', '_']) '*' ['\\', '*']) '~' ['\\', '~'] =
      escape_spec_char x := by
  by_cases h1 : x = '_'
  · subst h1; decide
  · by_cases h2 : x = '*'
    · subst h2; decide
    · by_cases h3 : x = '~'
      · subst h3; decide
      · simp [py_replace, escape_spec_char, h1, h2, h3]

theorem py_replace_append (a b : List Char) (c : Char) (r : List Char) :
    py_replace (a ++ b) c r = py_replace a c r ++ py_replace b c r := by
  simp [py_replace]

theorem escape_core (l : List Char) :
    py_replace (py_replace (py_replace l '_' ['\\', '_']) '*' ['\\', '*']) '~' ['\\', '~'] =
      l.flatMap escape_spec_char := by
  induction l with
  | nil => rfl
  | cons x xs ih =>
      have hx : (x :: xs) = [x] ++ xs := rfl
      rw [hx, py_replace_append, py_replace_append, py_replace_append,
        py_replace_single_step, ih, List.flatMap_append]
      simp [escape_spec_char]

theorem lookup_none_keys (m : TicketMap) (k : String) (h : m.lookup k = none) :
    k ∉ m.map Prod.fst := by
  induction m with
  | nil => simp
  | cons p rest ih =>
      rw [List.lookup] at h
      by_cases hk : k == p.1
      · simp [hk] at h
      · simp only [hk, Bool.false_eq_true, if_false] at h
        simp only [List.map_cons, List.mem_cons]
        rintro (rfl | hmem)
        · simp at hk
        · exact ih h hmem

/-! ## Claim theorems -/

/-- C7: for every input, `escape_discord` puts a backslash in front of
each underscore, asterisk and tilde and leaves every other character
unchanged (it agrees with the character-wise specification function);
the documented example holds, and a missing or empty input gives "". -/
theorem escape_discord_correct (t : Option String) :
    escape_discord t = escape_spec t ∧
    escape_discord (some "a_b*c~d") = "a\\_b\\*c\\~d" ∧
    escape_discord none = "" ∧
    escape_discord (some "") = "" := by
  refine ⟨?_, by decide, rfl, by decide⟩
  cases t with
  | none => rfl
  | some s =>
      by_cases h : s = ""
      · subst h; decide
      · simp only [escape_discord, escape_spec, if_neg h]
        exact congrArg String.mk (escape_core s.data)

/-- C6: `get_custom_message` returns the exact literal record for state
"OK", and for an unrecognized state a default record whose description
contains the raw state name and whose details are the raw service
output text. -/
theorem get_custom_message_ok_and_default (state output : String)
    (h : state ≠ "OK" ∧ state ≠ "WARNING" ∧ state ≠ "CRITICAL") :
    get_custom_message "OK" (some output) =
      ⟨65280, "✅", "[AWS] Service Recovery",
        "The Windows server services are recovered.",
        "Every services are working correctly.",
        "System back to normal operation"⟩ ∧
    (∃ a b, (get_custom_message state (some output)).description = a ++ state ++ b) ∧
    (get_custom_message state (some output)).details = output := by
  obtain ⟨h1, h2, h3⟩ := h
  refine ⟨by simp [get_custom_message], ?_, ?_⟩
  · exact ⟨"Service state changed to ", "", by simp [get_custom_message, h1, h2, h3]⟩
  · simp [get_custom_message, h1, h2, h3]

/-- Witness for C6 at the concrete unrecognized state "FOO". -/
theorem get_custom_message_ok_and_default_witness :
    (("FOO" : String) ≠ "OK" ∧ ("FOO" : String) ≠ "WARNING" ∧ ("FOO" : String) ≠ "CRITICAL") ∧
    (∃ a b, (get_custom_message "FOO" (some "raw output")).description = a ++ "FOO" ++ b) ∧
    (get_custom_message "FOO" (some "raw output")).details = "raw output" :=
  ⟨⟨by decide, by decide, by decide⟩,
    (get_custom_message_ok_and_default "FOO" "raw output" ⟨by decide, by decide, by decide⟩).2⟩

/-- C8: the duplicate check is total: it always returns a boolean; a
missing dedup log gives false, and whenever the scan of the stored
lines raises, the surrounding handler turns the raise into false
(failing open to not-duplicate instead of crashing). -/
theorem is_duplicate_notification_total (file : Option (List LogLine)) (now : Int) (fp : String) :
    (is_duplicate_notification none now fp = false) ∧
    (∀ lines, dedup_scan now fp lines = Except.error () →
      is_duplicate_notification (some lines) now fp = false) ∧
    (is_duplicate_notification file now fp = true ∨
      is_duplicate_notification file now fp = false) := by
  refine ⟨rfl, ?_, ?_⟩
  · intro lines hln
    simp [is_duplicate_notification, hln]
  · rcases h : is_duplicate_notification file now fp with _ | _
    · right; rfl
    · left; rfl

/-- Witness for C8 at a concrete malformed log line. -/
theorem is_duplicate_notification_total_witness :
    is_duplicate_notification (some [LogLine.badSplit]) 0 "x" = false :=
  (is_duplicate_notification_total (some [LogLine.badSplit]) 0 "x").2.1 [LogLine.badSplit] rfl

/-- C1, failing input: a fingerprint whose only stored timestamp is
86410 seconds in the past (one day and ten seconds) is classified as a
duplicate, because the code consults the `.seconds` attribute of the
timedelta (the remainder modulo one day) instead of the total elapsed
time; the module flow therefore suppresses the event and issues no
webhook POST even though it was last seen far more than 300 seconds
ago. -/
theorem dedup_window_seconds_attribute_bug :
    is_duplicate_notification (some [LogLine.fields "h_s_CRITICAL" (some 100)]) 86510 "h_s_CRITICAL" = true ∧
    (86510 - 100 : Int) ≥ DEDUP_WINDOW ∧
    td_seconds (86510 - 100) = 10 ∧
    discord_main_sends (fun s => s) (some [LogLine.fields "h_s_CRITICAL" (some 100)]) 86510 "h" "s" "CRITICAL" = false := by
  refine ⟨by decide, by decide, by decide, by decide⟩

/-- C9: joining event fields with a bare underscore is ambiguous: the
distinct pairs (host "a_b", service "c") and (host "a", service "b_c")
yield the same md5 input key in discord.py (hence equal digests for any
digest function) and the same fingerprint in glpi.py. -/
theorem fingerprint_underscore_collision (md5 : String → String) (st : String) :
    get_alert_fingerprint md5 "a_b" "c" st = get_alert_fingerprint md5 "a" "b_c" st ∧
    glpi_fingerprint "a_b" "c" = glpi_fingerprint "a" "b_c" ∧
    (("a_b", "c") : String × String) ≠ ("a", "b_c") := by
  refine ⟨congrArg md5 ?_, by decide, by decide⟩
  show discord_fingerprint_key "a_b" "c" st = discord_fingerprint_key "a" "b_c" st
  unfold discord_fingerprint_key
  exact congrArg (fun z => z ++ st) (by decide)

/-- C2: the ticketing notifier follows the transition table: with no
entry a WARNING or CRITICAL event creates exactly one ticket and
records its id under the fingerprint; with an entry present a WARNING
or CRITICAL event performs no ticket operation and leaves the map
unchanged; with an entry present an OK event closes exactly the
recorded ticket and removes the entry; with no entry an OK event is a
no-op; any unrecognized state is a no-op. -/
theorem glpi_transition_table (w : GlpiWorld) (file : Option TicketMap)
    (host service state output : String) (tok : String) (tid : Nat)
    (ho : w.open_res = Except.ok tok) (hc : w.create_res = Except.ok tid)
    (hx : w.close_ticket_res = Except.ok ()) (hk : w.kill_res = Except.ok ()) :
    ((state = "CRITICAL" ∨ state = "WARNING") →
        (read_state file).lookup (glpi_fingerprint host service) = none →
        createCount (glpi_main w file host service state output).trace = 1 ∧
        (glpi_main w file host service state output).written =
          some (read_state file ++ [(glpi_fingerprint host service, tid)])) ∧
    ((state = "CRITICAL" ∨ state = "WARNING") →
        ((read_state file).lookup (glpi_fingerprint host service)).isSome = true →
        (glpi_main w file host service state output).trace.filter isTicketOp = [] ∧
        (glpi_main w file host service state output).written = some (read_state file)) ∧
    (state = "OK" →
        ∀ t, (read_state file).lookup (glpi_fingerprint host service) = some t →
        (glpi_main w file host service state output).trace.filter isTicketOp = [GlpiEv.closeTicket t] ∧
        (glpi_main w file host service state output).written =
          some (dict_del (read_state file) (glpi_fingerprint host service))) ∧
    (state = "OK" →
        (read_state file).lookup (glpi_fingerprint host service) = none →
        (glpi_main w file host service state output).trace.filter isTicketOp = [] ∧
        (glpi_main w file host service state output).written = some (read_state file)) ∧
    (state ≠ "CRITICAL" → state ≠ "WARNING" → state ≠ "OK" →
        (glpi_main w file host service state output).trace.filter isTicketOp = [] ∧
        (glpi_main w file host service state output).written = some (read_state file)) := by
  refine ⟨fun hs hn => ?_, fun hs hp => ?_, fun hs t ht => ?_, fun hs hn => ?_, fun h1 h2 h3 => ?_⟩
  · rcases hs with h | h <;> subst h <;>
      simp [glpi_main, glpi_try_body, ho, hk, hc, dict_contains, hn, createCount, isCreate, isTicketOp]
  · rcases hs with h | h <;> subst h <;>
      simp [glpi_main, glpi_try_body, ho, hk, dict_contains, hp, isTicketOp]
  · subst hs
    simp [glpi_main, glpi_try_body, ho, hk, hx, ht, isTicketOp]
  · subst hs
    simp [glpi_main, glpi_try_body, ho, hk, hn, isTicketOp]
  · simp [glpi_main, glpi_try_body, ho, hk, h1, h2, h3, isTicketOp]

/-- Witness for C2 at a concrete CRITICAL event with no prior entry. -/
theorem glpi_transition_table_witness :
    ((("CRITICAL" : String) = "CRITICAL" ∨ ("CRITICAL" : String) = "WARNING") ∧
      (read_state (some ([] : TicketMap))).lookup (glpi_fingerprint "host1" "svcA") = none) ∧
    createCount (glpi_main ⟨Except.ok "tok", Except.ok 7, Except.ok (), Except.ok ()⟩
        (some []) "host1" "svcA" "CRITICAL" "out").trace = 1 ∧
    (glpi_main ⟨Except.ok "tok", Except.ok 7, Except.ok (), Except.ok ()⟩
        (some []) "host1" "svcA" "CRITICAL" "out").written =
      some (read_state (some []) ++ [(glpi_fingerprint "host1" "svcA", 7)]) :=
  ⟨⟨Or.inl rfl, rfl⟩,
    (glpi_transition_table ⟨Except.ok "tok", Except.ok 7, Except.ok (), Except.ok ()⟩
      (some []) "host1" "svcA" "CRITICAL" "out" "tok" 7 rfl rfl rfl rfl).1 (Or.inl rfl) rfl⟩

/-- C3: whenever the map on disk has at most one entry per fingerprint,
the map written back by any invocation does too, and the written map is
either the loaded map unchanged, the loaded map with one new entry for
a fingerprint that had none, or the loaded map with the fingerprint
entry removed: a create only happens when the fingerprint has no entry
and a close deletes the key. -/
theorem glpi_one_ticket_per_fingerprint (w : GlpiWorld) (file : Option TicketMap)
    (host service state output : String)
    (h : ((read_state file).map Prod.fst).Nodup) :
    ∀ m', (glpi_main w file host service state output).written = some m' →
      (m'.map Prod.fst).Nodup ∧
      (m' = read_state file ∨
        (∃ t, (read_state file).lookup (glpi_fingerprint host service) = none ∧
          m' = read_state file ++ [(glpi_fingerprint host service, t)]) ∨
        (((read_state file).lookup (glpi_fingerprint host service)).isSome = true ∧
          m' = dict_del (read_state file) (glpi_fingerprint host service))) := by
  intro m' hm'
  have hsub : ((dict_del (read_state file) (glpi_fingerprint host service)).map Prod.fst).Nodup :=
    h.sublist ((List.filter_sublist (read_state file)).map Prod.fst)
  have hins : ∀ t, (read_state file).lookup (glpi_fingerprint host service) = none →
      (((read_state file ++ [(glpi_fingerprint host service, t)]).map Prod.fst).Nodup) := by
    intro t hn
    have hmemf := lookup_none_keys (read_state file) (glpi_fingerprint host service) hn
    rw [List.map_append]
    exact List.Nodup.append h (List.nodup_singleton _)
      (by simpa [List.disjoint_singleton] using hmemf)
  rcases ho : w.open_res with e | tok
  · simp [glpi_main, ho] at hm'
  rcases hk : w.kill_res with e | u
  · simp [glpi_main, ho, hk] at hm'
  by_cases hcw : state = "CRITICAL" ∨ state = "WARNING"
  · by_cases hin : ((read_state file).lookup (glpi_fingerprint host service)).isSome = true
    · have : m' = read_state file := by
        rcases hcw with hs | hs <;> subst hs <;>
          simp [glpi_main, glpi_try_body, ho, hk, dict_contains, hin] at hm' <;>
          exact hm'.symm
      subst this
      exact ⟨h, Or.inl rfl⟩
    · have hn : (read_state file).lookup (glpi_fingerprint host service) = none := by
        rcases hlk : (read_state file).lookup (glpi_fingerprint host service) with _ | t
        · rfl
        · exact absurd (by simp [hlk]) hin
      rcases hcr : w.create_res with e | tid
      · have : m' = read_state file := by
          rcases hcw with hs | hs <;> subst hs <;>
            simp [glpi_main, glpi_try_body, ho, hk, hcr, dict_contains, hn] at hm' <;>
            exact hm'.symm
        subst this
        exact ⟨h, Or.inl rfl⟩
      · have : m' = read_state file ++ [(glpi_fingerprint host service, tid)] := by
          rcases hcw with hs | hs <;> subst hs <;>
            simp [glpi_main, glpi_try_body, ho, hk, hcr, dict_contains, hn] at hm' <;>
            exact hm'.symm
        subst this
        exact ⟨hins tid hn, Or.inr (Or.inl ⟨tid, hn, rfl⟩)⟩
  · by_cases hok : state = "OK"
    · subst hok
      rcases hlk : (read_state file).lookup (glpi_fingerprint host service) with _ | t
      · have : m' = read_state file := by
          simp [glpi_main, glpi_try_body, ho, hk, hlk] at hm'
          exact hm'.symm
        subst this
        exact ⟨h, Or.inl rfl⟩
      · rcases hcl : w.close_ticket_res with e | u
        · have : m' = read_state file := by
            simp [glpi_main, glpi_try_body, ho, hk, hlk, hcl] at hm'
            exact hm'.symm
          subst this
          exact ⟨h, Or.inl rfl⟩
        · have : m' = dict_del (read_state file) (glpi_fingerprint host service) := by
            simp [glpi_main, glpi_try_body, ho, hk, hlk, hcl] at hm'
            exact hm'.symm
          subst this
          exact ⟨hsub, Or.inr (Or.inr ⟨by simp [hlk], rfl⟩)⟩
    · have hnc : state ≠ "CRITICAL" := fun hh => hcw (Or.inl hh)
      have hnw : state ≠ "WARNING" := fun hh => hcw (Or.inr hh)
      have : m' = read_state file := by
        simp [glpi_main, glpi_try_body, ho, hk, hnc, hnw, hok] at hm'
        exact hm'.symm
      subst this
      exact ⟨h, Or.inl rfl⟩

/-- Witness for C3 at a concrete OK event closing the stored ticket. -/
theorem glpi_one_ticket_per_fingerprint_witness :
    ((read_state (some [("h1_s1", 4)])).map Prod.fst).Nodup ∧
    (((glpi_main ⟨Except.ok "tok", Except.ok 7, Except.ok (), Except.ok ()⟩
        (some [("h1_s1", 4)]) "h1" "s1" "OK" "out").written = some (dict_del [("h1_s1", 4)] "h1_s1")) ∧
      ((dict_del [("h1_s1", 4)] "h1_s1").map Prod.fst).Nodup) := by
  refine ⟨by decide, rfl, ?_⟩
  exact ((glpi_one_ticket_per_fingerprint ⟨Except.ok "tok", Except.ok 7, Except.ok (), Except.ok ()⟩
    (some [("h1_s1", 4)]) "h1" "s1" "OK" "out" (by decide)) (dict_del [("h1_s1", 4)] "h1_s1") rfl).1

/-- C4: whenever the session was successfully opened, the session-close
call appears on the trace on every path (for every outcome of the
ticket operations, raises included), it comes after every ticket
operation, and nothing issued after it is a ticket operation (the
trace is everything issued before any error propagates). -/
theorem glpi_session_closed_on_all_paths (w : GlpiWorld) (file : Option TicketMap)
    (host service state output : String) (tok : String)
    (ho : w.open_res = Except.ok tok) :
    ∃ evs rest,
      (glpi_main w file host service state output).trace =
        GlpiEv.openSession :: evs ++ GlpiEv.closeSession :: rest ∧
      ∀ e ∈ rest, isTicketOp e = false := by
  rcases hk : w.kill_res with e | u
  · refine ⟨(glpi_try_body w (read_state file) (glpi_fingerprint host service) host service state output).1,
      [], ?_, by simp⟩
    simp [glpi_main, ho, hk]
  · rcases hr : (glpi_try_body w (read_state file) (glpi_fingerprint host service) host service state output).2
      with e2 | m
    · refine ⟨(glpi_try_body w (read_state file) (glpi_fingerprint host service) host service state output).1,
        [GlpiEv.writeState (read_state file)], ?_, by simp [isTicketOp]⟩
      simp [glpi_main, ho, hk, hr]
    · refine ⟨(glpi_try_body w (read_state file) (glpi_fingerprint host service) host service state output).1,
        [GlpiEv.writeState m], ?_, by simp [isTicketOp]⟩
      simp [glpi_main, ho, hk, hr]

/-- Witness for C4 at a concrete run whose ticket creation raises. -/
theorem glpi_session_closed_on_all_paths_witness :
    ∃ evs rest,
      (glpi_main ⟨Except.ok "tok", Except.error (), Except.ok (), Except.ok ()⟩
        none "h1" "s1" "CRITICAL" "o").trace =
        GlpiEv.openSession :: evs ++ GlpiEv.closeSession :: rest ∧
      ∀ e ∈ rest, isTicketOp e = false :=
  glpi_session_closed_on_all_paths ⟨Except.ok "tok", Except.error (), Except.ok (), Except.ok ()⟩
    none "h1" "s1" "CRITICAL" "o" "tok" rfl

/-- C5, counterexample: when the initSession request raises, the
invocation ends without any write of the state map, so the map is not
written back on every invocation; here the loaded map even holds an
entry that an OK event should have closed. -/
theorem glpi_write_skipped_on_open_failure :
    (glpi_main ⟨Except.error (), Except.ok 1, Except.ok (), Except.ok ()⟩
      (some [("h_s", 5)]) "h" "s" "OK" "o").written = none := rfl

/-- C5, amended: on every invocation in which the session was opened
successfully and the session-close call did not raise, the full map is
loaded at start (a missing state file yields the empty map) and the
full map is written back at the end, after session close, regardless of
whether any mutation occurred or a ticket operation raised mid-flow. -/
theorem glpi_write_after_close (w : GlpiWorld) (file : Option TicketMap)
    (host service state output : String) (tok : String)
    (ho : w.open_res = Except.ok tok) (hk : w.kill_res = Except.ok ()) :
    read_state none = [] ∧
    ∃ evs m,
      (glpi_main w file host service state output).trace =
        evs ++ [GlpiEv.closeSession, GlpiEv.writeState m] ∧
      (glpi_main w file host service state output).written = some m := by
  refine ⟨rfl, ?_⟩
  rcases hr : (glpi_try_body w (read_state file) (glpi_fingerprint host service) host service state output).2
    with e | m
  · exact ⟨GlpiEv.openSession ::
      (glpi_try_body w (read_state file) (glpi_fingerprint host service) host service state output).1,
      read_state file, by simp [glpi_main, ho, hk, hr], by simp [glpi_main, ho, hk, hr]⟩
  · exact ⟨GlpiEv.openSession ::
      (glpi_try_body w (read_state file) (glpi_fingerprint host service) host service state output).1,
      m, by simp [glpi_main, ho, hk, hr], by simp [glpi_main, ho, hk, hr]⟩

/-- Witness for the amended C5 at a concrete run whose ticket creation
raises: the unmutated map is still written, after session close. -/
theorem glpi_write_after_close_witness :
    read_state none = [] ∧
    ∃ evs m,
      (glpi_main ⟨Except.ok "tok", Except.error (), Except.ok (), Except.ok ()⟩
        (some [("a_b", 3)]) "h" "s" "CRITICAL" "o").trace =
        evs ++ [GlpiEv.closeSession, GlpiEv.writeState m] ∧
      (glpi_main ⟨Except.ok "tok", Except.error (), Except.ok (), Except.ok ()⟩
        (some [("a_b", 3)]) "h" "s" "CRITICAL" "o").written = some m :=
  glpi_write_after_close ⟨Except.ok "tok", Except.error (), Except.ok (), Except.ok ()⟩
    (some [("a_b", 3)]) "h" "s" "CRITICAL" "o" "tok" rfl rfl

/-- C10: when opening the session raises, no ticket operation is issued
and the state file is not written; and when the session-close call
itself raises, the state file is not written either. -/
theorem glpi_no_write_on_session_error (w : GlpiWorld) (file : Option TicketMap)
    (host service state output : String) :
    (w.open_res = Except.error () →
      (glpi_main w file host service state output).trace.filter isTicketOp = [] ∧
      (glpi_main w file host service state output).written = none) ∧
    (w.kill_res = Except.error () →
      (glpi_main w file host service state output).written = none) := by
  constructor
  · intro ho
    simp [glpi_main, ho, isTicketOp]
  · intro hk
    rcases ho : w.open_res with e | tok
    · simp [glpi_main, ho]
    · simp [glpi_main, ho, hk]

/-- Witness for C10 at a concrete world whose initSession and
killSession requests both raise. -/
theorem glpi_no_write_on_session_error_witness :
    ((glpi_main ⟨Except.error (), Except.ok 1, Except.ok (), Except.error ()⟩
        (some [("h_s", 5)]) "h" "s" "CRITICAL" "o").trace.filter isTicketOp = [] ∧
      (glpi_main ⟨Except.error (), Except.ok 1, Except.ok (), Except.error ()⟩
        (some [("h_s", 5)]) "h" "s" "CRITICAL" "o").written = none) ∧
    (glpi_main ⟨Except.error (), Except.ok 1, Except.ok (), Except.error ()⟩
        (some [("h_s", 5)]) "h" "s" "CRITICAL" "o").written = none :=
  ⟨(glpi_no_write_on_session_error ⟨Except.error (), Except.ok 1, Except.ok (), Except.error ()⟩
      (some [("h_s", 5)]) "h" "s" "CRITICAL" "o").1 rfl,
    (glpi_no_write_on_session_error ⟨Except.error (), Except.ok 1, Except.ok (), Except.error ()⟩
      (some [("h_s", 5)]) "h" "s" "CRITICAL" "o").2 rfl⟩
